import Mathlib

/-!
Verification of the FogResolve(AI) core logic: the bubble sizing and
pagination rules, the CTA click handler (pagination and pop), the ambient
audio layer manager (`AudioManager.playAmbient` and the fade envelopes),
and the scene transition system (`TRANSITIONS` / `runSceneTransition`).

Each definition is a shallow embedding of the corresponding JavaScript in
the repository's main application file.  Machine numbers that the code
treats as real numbers (volumes, progress ratios) are modelled as `ℚ`;
DOM side effects are modelled as explicit effect lists; `setTimeout` /
`setInterval` scheduling is modelled by explicit (time, event) pairs and
tick-indexed state functions.
-/

namespace FogResolve

/-! ## Bubble sizing and pagination (`expandBubble`) -/

/-- Embedding of `calculateBubbleSize` (inside `expandBubble`):
`effectiveCount = min(sentenceCount, maxSentences)`; base 520 for at most
3 sentences, plus 80 per extra sentence up to the 5-sentence cap. -/
def calculateBubbleSize (sentenceCount : Nat) : Nat :=
  let baseSentences := 3
  let baseSize := 520
  let maxSentences := 5
  let growthPerSentence := 80
  let effectiveCount := min sentenceCount maxSentences
  if effectiveCount ≤ baseSentences then baseSize
  else baseSize + (effectiveCount - baseSentences) * growthPerSentence

/-- Embedding of `const sentenceCount = sentences.length || 3`:
a DOM sentence count of 0 is falsy in JavaScript, so it defaults to 3. -/
def effectiveSentenceCount (domCount : Nat) : Nat :=
  if domCount = 0 then 3 else domCount

/-- Embedding of `const sentencesPerPage = 5`. -/
def sentencesPerPage : Nat := 5

/-- Embedding of `totalPages = Math.ceil(sentenceCount / sentencesPerPage)`. -/
def totalPagesFor (sentenceCount : Nat) : Nat :=
  (sentenceCount + sentencesPerPage - 1) / sentencesPerPage

/-- The two possible CTA button labels: the code writes the strings
`'Volgende'` and `'Pop!'`. -/
inductive CtaLabel
  | volgende
  | popLabel
deriving DecidableEq

/-- Embedding of `cta.textContent = totalPages > 1 ? 'Volgende' : 'Pop!'`. -/
def initialCtaLabel (totalPages : Nat) : CtaLabel :=
  if 1 < totalPages then CtaLabel.volgende else CtaLabel.popLabel

/-! ## One-shot persona tracks and the CTA click handler

The `AudioManager` holds one nullable field per persona voice-over track
(`introAudio`, `copilotAudio`, `chat1Audio`, ...) with a `play...Audio` /
`stop...Audio` method pair for each.  The CTA click handler inside
`expandBubble` either paginates (when `currentPage < totalPages`) or pops
the bubble, and the pop branch calls *every* `stop...Audio` method. -/

/-- The fifteen one-shot persona tracks of `AudioManager`, in the order in
which the pop branch of the CTA handler stops them. -/
inductive Track
  | intro | copilot | chat1 | chat2 | watIsAI | geneve | paulBlok | michiel
  | joey | kathleen | marieke | rronNushi | rawaz | tobias1 | tobias2
deriving DecidableEq

/-- The bubble variants distinguished by the code via CSS classes
(`bubble-orbit-alpha`, `bubble-orbit-beta`, ..., `bubble-tobias`) plus the
scene-1 first bubble (no scene dataset attribute) and the scene-8 bubbles
without audio (`bubble-mu`, `bubble-nu`, `bubble-xi`). -/
inductive BubbleKind
  | first
  | alpha | beta | gamma
  | delta | epsilon | zeta
  | eta | theta | iota | kappa | lambda
  | tobias | mu | nu | xi
deriving DecidableEq

/-- The one-shot tracks the code binds to each bubble variant: the
`play...Audio` calls issued for that bubble on content reveal and on
pagination (`chat1`/`chat2` for beta pages 1 and 2, `tobias1`/`tobias2`
for the tobias bubble pages 1 and 2). -/
def boundTracks : BubbleKind → List Track
  | .first => [.intro]
  | .alpha => [.copilot]
  | .beta => [.chat1, .chat2]
  | .gamma => [.watIsAI]
  | .delta => [.geneve]
  | .epsilon => [.paulBlok]
  | .zeta => [.michiel]
  | .eta => [.joey]
  | .theta => [.kathleen]
  | .iota => [.marieke]
  | .kappa => [.rronNushi]
  | .lambda => [.rawaz]
  | .tobias => [.tobias1, .tobias2]
  | .mu => []
  | .nu => []
  | .xi => []

/-- The fixed sequence of `stop...Audio` calls in the pop branch of the
CTA handler (`stopIntroAudio` through `stopTobias2Audio`), issued on every
pop regardless of which bubble is being popped. -/
def popStopList : List Track :=
  [.intro, .copilot, .chat1, .chat2, .watIsAI, .geneve, .paulBlok, .michiel,
   .joey, .kathleen, .marieke, .rronNushi, .rawaz, .tobias1, .tobias2]

/-- The scene dataset attribute of a bubble (`data-scene2` /
`data-scene4` / `data-scene6` / `data-scene8`, or none for the scene-1
first bubble). -/
inductive SceneTag
  | noTag | scene2 | scene4 | scene6 | scene8
deriving DecidableEq

/-- Observable side effects of one CTA click, in program order. -/
inductive BubbleEffect
  | popSound
  | stopTrackFx (t : Track)
  | playTrackFx (t : Track)
  | setCtaPop
  | removeBubble
  | advanceCheck (tag : SceneTag)
deriving DecidableEq

/-- The mutable per-bubble state read and written by the CTA handler. -/
structure BubbleState where
  kind : BubbleKind
  tag : SceneTag
  currentPage : Nat
  totalPages : Nat
  popped : Bool
deriving DecidableEq

/-- Embedding of the CTA click handler wired in `expandBubble`.

Pagination branch (`currentPage < totalPages`): increments the page,
swaps `chat1` for `chat2` when the beta bubble reaches page 2 and
`tobias1` for `tobias2` when the tobias bubble reaches page 2, and
rewrites the CTA label to `'Pop!'` on the last page; it then returns.

Pop branch (otherwise): plays the pop sound, stops all fifteen persona
tracks, removes the bubble after its fade-out, and checks whether its
scene has remaining bubbles (`advanceCheck`). -/
def ctaClick (b : BubbleState) : BubbleState × List BubbleEffect :=
  if b.currentPage < b.totalPages then
    let newPage := b.currentPage + 1
    let audioFx :=
      (if b.kind = .beta ∧ newPage = 2 then
        [BubbleEffect.stopTrackFx .chat1, BubbleEffect.playTrackFx .chat2]
       else []) ++
      (if b.kind = .tobias ∧ newPage = 2 then
        [BubbleEffect.stopTrackFx .tobias1, BubbleEffect.playTrackFx .tobias2]
       else [])
    let ctaFx := if newPage = b.totalPages then [BubbleEffect.setCtaPop] else []
    ({ b with currentPage := newPage }, audioFx ++ ctaFx)
  else
    ({ b with popped := true },
      BubbleEffect.popSound :: popStopList.map BubbleEffect.stopTrackFx
        ++ [BubbleEffect.removeBubble, BubbleEffect.advanceCheck b.tag])

/-! ## Scene-2 pop / advancement bookkeeping

When a `data-scene2` bubble is popped, the handler removes it and, if no
`[data-scene2="true"]` element remains, calls `openScene3`, which removes
any leftovers and runs the `'2-3'` transition. -/

/-- The four keys of the `TRANSITIONS` configuration object
(`'2-3'`, `'4-5'`, `'6-7'`, `'8-9'`). -/
inductive TransitionKey
  | k23 | k45 | k67 | k89
deriving DecidableEq

/-- Embedding of the scene-2 world state relevant to advancement: the
`data-scene2` bubbles still in the DOM, and the `runSceneTransition`
invocations made so far. -/
structure Scene2World where
  bubbles : List Nat
  transitionsRun : List TransitionKey
deriving DecidableEq

/-- Embedding of `openScene3`: removes every remaining `data-scene2`
element and runs the `'2-3'` scene transition (content population after
the transition is out of scope here). -/
def openScene3 (w : Scene2World) : Scene2World :=
  { bubbles := [], transitionsRun := w.transitionsRun ++ [TransitionKey.k23] }

/-- Embedding of the scene-2 pop removal path of the CTA handler: the
popped bubble is removed, the remaining `[data-scene2="true"]` elements
are counted, and `openScene3` runs iff none remain. -/
def popScene2Bubble (b : Nat) (w : Scene2World) : Scene2World :=
  let rest := w.bubbles.erase b
  let w' : Scene2World := { w with bubbles := rest }
  if rest.isEmpty then openScene3 w' else w'

/-! ## Scene transitions (`TRANSITIONS` and `runSceneTransition`) -/

/-- The timing fields of one `TRANSITIONS` entry. -/
structure TransitionConfig where
  duration : Nat
  audioFadeOut : Nat
  audioFadeIn : Nat
deriving DecidableEq

/-- Embedding of the `TRANSITIONS` configuration object: durations and
audio fade timings of the four configured transitions. -/
def TRANSITIONS : TransitionKey → TransitionConfig
  | .k23 => ⟨5500, 500, 300⟩
  | .k45 => ⟨5500, 500, 300⟩
  | .k67 => ⟨5500, 500, 300⟩
  | .k89 => ⟨6000, 800, 500⟩

/-- The keys for which `runSceneTransition` plays the looping `Steps.wav`
transition audio and runs the ambient fade choreography (the branch
`transitionKey === '2-3' || '4-5' || '6-7'`). -/
def stepsLoopKey : TransitionKey → Bool
  | .k23 => true
  | .k45 => true
  | .k67 => true
  | .k89 => false

/-- Embedding of `parseInt(transitionKey.split('-')[1])`: the destination
scene number of a transition key. -/
def targetSceneOf : TransitionKey → Nat
  | .k23 => 3
  | .k45 => 5
  | .k67 => 7
  | .k89 => 9

/-- Observable events of one `runSceneTransition` call, tagged with the
millisecond time at which the code runs them (offset-0 effects run
synchronously; the rest are scheduled with `setTimeout`). -/
inductive TransitionEvent
  | playTransitionAudio (stepsLoop : Bool)
  | fadeAmbientToLevelEv (level : ℚ) (durationMs : Nat)
  | onStart (key : TransitionKey)
  | playAmbientEv (sceneNum : Nat)
  | fadeInAmbientEv (durationMs : Nat)
  | onComplete (key : TransitionKey)
  | stopTransitionEv
deriving DecidableEq

/-- Embedding of `runSceneTransition(transitionKey)` called at absolute
time `startTime`: the timed event list it produces.  At offset 0 it plays
the transition audio (looping `Steps.wav` plus a fade of the ambient
layers to level 0.5 for the `'2-3'`/`'4-5'`/`'6-7'` keys, the default
swoosh otherwise) and runs `config.onStart`; at `audioFadeIn` it calls
`playAmbient(targetScene)` (plus `fadeInAmbient(800)` for the Steps
keys); at `duration` it runs `config.onComplete` (plus `stopTransition`
for the Steps keys). -/
def runSceneTransition (key : TransitionKey) (startTime : Nat) :
    List (Nat × TransitionEvent) :=
  let cfg := TRANSITIONS key
  (if stepsLoopKey key then
    [(startTime, TransitionEvent.playTransitionAudio true),
     (startTime, TransitionEvent.fadeAmbientToLevelEv (1/2) cfg.audioFadeOut)]
   else
    [(startTime, TransitionEvent.playTransitionAudio false)]) ++
  [(startTime, TransitionEvent.onStart key)] ++
  [(startTime + cfg.audioFadeIn, TransitionEvent.playAmbientEv (targetSceneOf key))] ++
  (if stepsLoopKey key then
    [(startTime + cfg.audioFadeIn, TransitionEvent.fadeInAmbientEv 800)]
   else []) ++
  [(startTime + cfg.duration, TransitionEvent.onComplete key)] ++
  (if stepsLoopKey key then
    [(startTime + cfg.duration, TransitionEvent.stopTransitionEv)]
   else [])

/-- Recognizer for `onComplete` events in a timed event list. -/
def isOnComplete : Nat × TransitionEvent → Bool
  | (_, TransitionEvent.onComplete _) => true
  | _ => false

/-! ## Ambient layers (`AudioManager.playAmbient`) -/

/-- The ambient layer ids appearing in the per-scene ambience configs
(`'frogs'`, `'night'`, `'insects'`). -/
inductive LayerId
  | frogs | night | insects
deriving DecidableEq

/-- One entry of `AudioManager.ambientLayers`: the `Audio` element for a
layer.  `createdAt` is a creation counter standing for object identity,
so that recreating a layer is visible as a different `createdAt`. -/
structure Layer where
  createdAt : Nat
  volume : ℚ
  muted : Bool
  playing : Bool
  loop : Bool
deriving DecidableEq

/-- Association list lookup (the `Map.get` of the embedding). -/
def lookupIn {α β : Type} [DecidableEq α] (k : α) : List (α × β) → Option β
  | [] => none
  | (k', v) :: rest => if k' = k then some v else lookupIn k rest

/-- Embedding of the `earlySceneAudio` table (scenes 1-2). -/
def earlySceneAudio : List (LayerId × ℚ) :=
  [(.frogs, 1/4), (.night, 1/4), (.insects, 1/2)]

/-- Embedding of the `lateSceneAudio` table (scenes 3-5). -/
def lateSceneAudio : List (LayerId × ℚ) :=
  [(.frogs, 1/4), (.night, 1/2), (.insects, 1/4)]

/-- Embedding of the `sceneConfig` object inside `playAmbient`: scenes 1
and 2 map to `earlySceneAudio`, scenes 3-5 to `lateSceneAudio`, every
other scene is unconfigured. -/
def sceneConfig (sceneNum : Nat) : Option (List (LayerId × ℚ)) :=
  if sceneNum = 1 ∨ sceneNum = 2 then some earlySceneAudio
  else if sceneNum = 3 ∨ sceneNum = 4 ∨ sceneNum = 5 then some lateSceneAudio
  else none

/-- The `AudioManager` fields read and written by `playAmbient`. -/
structure AmbientState where
  ambientLayers : List (LayerId × Layer)
  audioInitialized : Bool
  audioEnabled : Bool
  pendingSceneAudio : Option Nat
  nextCreation : Nat
deriving DecidableEq

/-- The volume-adjustment loop of `playAmbient` for already-existing
layers: `config.forEach(layer => { const audio = map.get(layer.id); if
(audio) audio.volume = layer.volume; })`.  Entries of the map whose id is
not in the config keep their state; config ids absent from the map are
ignored. -/
def retargetVolumes (cfg : List (LayerId × ℚ)) (layers : List (LayerId × Layer)) :
    List (LayerId × Layer) :=
  layers.map fun p =>
    match lookupIn p.1 cfg with
    | some v => (p.1, { p.2 with volume := v })
    | none => p

/-- The first-time creation loop of `playAmbient`: each configured layer
gets a fresh `Audio` element with `loop = true`, its configured volume,
`muted = true` and playback started. -/
def createLayers (cfg : List (LayerId × ℚ)) (firstCreation : Nat) :
    List (LayerId × Layer) :=
  cfg.enum.map fun p =>
    (p.2.1, { createdAt := firstCreation + p.1, volume := p.2.2,
              muted := true, playing := true, loop := true })

/-- Embedding of `AudioManager.playAmbient(sceneNum)`.  In order: the
autoplay queueing guard for scene 1 before initialization, the
`audioEnabled` guard, the `sceneConfig` lookup (unconfigured scenes are
skipped), then either the volume retargeting of existing layers
(`ambientLayers.size > 0`) or the first-time creation of all configured
layers. -/
def playAmbient (sceneNum : Nat) (st : AmbientState) : AmbientState :=
  if st.audioInitialized = false ∧ sceneNum = 1 then
    { st with pendingSceneAudio := some sceneNum }
  else if st.audioEnabled = false then st
  else
    match sceneConfig sceneNum with
    | none => st
    | some cfg =>
      if st.ambientLayers.isEmpty then
        { st with
            ambientLayers := createLayers cfg st.nextCreation,
            nextCreation := st.nextCreation + cfg.length }
      else
        { st with ambientLayers := retargetVolumes cfg st.ambientLayers }

/-! ## Fade envelopes (`fadeAmbientToLevel`, `fadeOutAmbient`, `fadeInAmbient`)

Each of the three fade methods captures the current layer volumes,
computes `steps = 50` and `stepDuration = duration / steps`, and starts a
fresh `setInterval` that advances `step` until `step >= steps` and then
clears only *its own* interval.  None of the methods clears an interval
started by an earlier call. -/

/-- Embedding of `const steps = 50` shared by all three fade methods. -/
def fadeSteps : Nat := 50

/-- Embedding of `stepDuration = duration / steps`. -/
def stepDuration (durationMs : ℚ) : ℚ := durationMs / fadeSteps

/-- The absolute time at which the k-th interval tick of a fade of the
given duration fires. -/
def tickTime (durationMs : ℚ) (k : Nat) : ℚ := k * stepDuration durationMs

/-- Playback-relevant state of a single ambient layer while a fade-out
interval drives it: its volume, whether `pause()` has been called, and
its `currentTime` playback position. -/
structure FadePlayback where
  volume : ℚ
  paused : Bool
  currentTime : ℚ
deriving DecidableEq

/-- Embedding of the `fadeOutAmbient` interval acting on one layer whose
captured start volume is `v` and whose playback position is `t0`: the
layer state after `n` interval ticks.  Each tick sets
`volume = startVol * (1 - step / steps)`; the tick reaching `steps`
additionally clears the interval, pauses the layer and resets
`currentTime` to 0, and no tick fires after the interval is cleared. -/
def fadeOutTicks (v t0 : ℚ) : Nat → FadePlayback
  | 0 => ⟨v, false, t0⟩
  | n + 1 =>
    let prev := fadeOutTicks v t0 n
    if fadeSteps ≤ n then prev
    else
      let progress : ℚ := (n + 1 : Nat) / fadeSteps
      if fadeSteps ≤ n + 1 then ⟨v * (1 - progress), true, 0⟩
      else ⟨v * (1 - progress), false, prev.currentTime⟩

/-- Embedding of the `fadeAmbientToLevel` interval acting on one layer
with captured start volume `v` and target level `L`: the layer volume
after `n` ticks.  Each tick sets
`volume = startVol * (1 - progress * (1 - targetLevel))`; the tick
reaching `steps` clears the interval (no pause, no snap beyond the
formula). -/
def fadeToLevelTicks (v L : ℚ) : Nat → ℚ
  | 0 => v
  | n + 1 =>
    if fadeSteps ≤ n then fadeToLevelTicks v L n
    else v * (1 - ((n + 1 : Nat) : ℚ) / fadeSteps * (1 - L))

/-- Embedding of the `fadeInAmbient` interval acting on one layer whose
captured target volume is `target`.  The method first sets the volume to
0; each tick sets `volume = targetVol * progress`; the tick reaching
`steps` clears the interval and snaps the volume exactly to `target`. -/
def fadeInTicks (target : ℚ) : Nat → ℚ
  | 0 => 0
  | n + 1 =>
    if fadeSteps ≤ n then fadeInTicks target n
    else if fadeSteps ≤ n + 1 then target
    else target * ((n + 1 : Nat) : ℚ) / fadeSteps

/-- The three kinds of fade envelope a fade method can start, with the
data each captures at creation. -/
inductive EnvelopeKind
  | toLevel (targetLevel : ℚ)
  | outEnv
  | inEnv
deriving DecidableEq

/-- A live fade interval: which layers it drives (all ambient layers
present when the fade started), the volumes it captured, its progress,
and its step budget.  It is live (driving volumes) until `stepsDone`
reaches `totalSteps`, when it clears itself. -/
structure Envelope where
  kind : EnvelopeKind
  layerIds : List LayerId
  startVolumes : List (LayerId × ℚ)
  stepsDone : Nat
  totalSteps : Nat
deriving DecidableEq

/-- The fade-relevant state of `AudioManager`: the ambient layer volumes
and the set of live fade intervals. -/
structure FadeSystem where
  layers : List (LayerId × ℚ)
  envelopes : List Envelope
deriving DecidableEq

/-- An envelope is still driving a given layer when the layer is in its
set and its interval has not yet been cleared. -/
def envelopeDrives (e : Envelope) (id : LayerId) : Bool :=
  decide (id ∈ e.layerIds) && decide (e.stepsDone < e.totalSteps)

/-- Embedding of `fadeAmbientToLevel(targetLevel, duration)`: returns
unchanged when no layer exists, otherwise captures the current volumes
and starts a fresh interval.  No existing interval is cleared. -/
def fadeAmbientToLevel (targetLevel : ℚ) (st : FadeSystem) : FadeSystem :=
  if st.layers.isEmpty then st
  else
    { st with
        envelopes := st.envelopes ++
          [⟨EnvelopeKind.toLevel targetLevel, st.layers.map Prod.fst,
            st.layers, 0, fadeSteps⟩] }

/-- Embedding of `fadeOutAmbient(duration)`: returns unchanged when no
layer exists, otherwise captures the current volumes and starts a fresh
interval.  No existing interval is cleared. -/
def fadeOutAmbient (st : FadeSystem) : FadeSystem :=
  if st.layers.isEmpty then st
  else
    { st with
        envelopes := st.envelopes ++
          [⟨EnvelopeKind.outEnv, st.layers.map Prod.fst, st.layers, 0,
            fadeSteps⟩] }

/-- Embedding of `fadeInAmbient(duration)`: returns unchanged when no
layer exists, otherwise captures the current volumes as targets, zeroes
every layer volume at once, and starts a fresh interval.  No existing
interval is cleared. -/
def fadeInAmbient (st : FadeSystem) : FadeSystem :=
  if st.layers.isEmpty then st
  else
    { layers := st.layers.map fun p => (p.1, 0),
      envelopes := st.envelopes ++
        [⟨EnvelopeKind.inEnv, st.layers.map Prod.fst, st.layers, 0,
          fadeSteps⟩] }

/-! ## Concrete states used by witnesses and counterexamples -/

/-- A frogs layer as created for scene 1 (volume 0.25). -/
def demoFrogsLayer : Layer :=
  { createdAt := 0, volume := 1/4, muted := false, playing := true, loop := true }

/-- An `AudioManager` ambient state after scene-1 startup: the frogs
layer exists, audio is initialized and enabled. -/
def demoAmbientState : AmbientState :=
  { ambientLayers := [(.frogs, demoFrogsLayer)],
    audioInitialized := true, audioEnabled := true,
    pendingSceneAudio := none, nextCreation := 3 }

/-- A fade system in which the frogs and night layers are playing at
their scene-1 volumes, with no fade in flight. -/
def demoFadeSystem : FadeSystem :=
  { layers := [(.frogs, 1/4), (.night, 1/4)], envelopes := [] }

/-- A beta (ChatGPT) bubble on page 1 of 2, as produced by `expandBubble`
for its two-page content. -/
def betaPage1 : BubbleState :=
  { kind := .beta, tag := .scene2, currentPage := 1, totalPages := 2,
    popped := false }

/-- An alpha (Copilot) bubble on its single page, ready to pop. -/
def alphaLastPage : BubbleState :=
  { kind := .alpha, tag := .scene2, currentPage := 1, totalPages := 1,
    popped := false }

/-- A gamma bubble on page 1 of 2 (hypothetical two-page content), used
to witness the pagination guard. -/
def gammaPage1 : BubbleState :=
  { kind := .gamma, tag := .scene2, currentPage := 1, totalPages := 2,
    popped := false }

/-! ## Theorems -/

/-- Closed form for the size computation: the branch on
`effectiveCount <= baseSentences` collapses to a truncated subtraction. -/
theorem calculateBubbleSize_closed_form (c : Nat) :
    calculateBubbleSize c = 520 + (min c 5 - 3) * 80 := by
  simp only [calculateBubbleSize]
  split <;> omega

/-- C9: the computed bubble display size equals
`520 + max(0, min(sentenceCount, 5) - 3) * 80`; it is 520 for every count
at most 3, 600 for count 4, 680 for every count at least 5 (capped, so
count 7 also gives 680), and it is monotonically non-decreasing in the
sentence count. -/
theorem bubbleSize_formula_cases_and_monotone :
    (∀ c : Nat, (calculateBubbleSize c : ℤ) =
        520 + max 0 (min (c : ℤ) 5 - 3) * 80) ∧
    (∀ c : Nat, c ≤ 3 → calculateBubbleSize c = 520) ∧
    calculateBubbleSize 4 = 600 ∧
    (∀ c : Nat, 5 ≤ c → calculateBubbleSize c = 680) ∧
    calculateBubbleSize 7 = 680 ∧
    (∀ c d : Nat, c ≤ d → calculateBubbleSize c ≤ calculateBubbleSize d) := by
  refine ⟨fun c => ?_, fun c hc => ?_, ?_, fun c hc => ?_, ?_, fun c d hcd => ?_⟩
  · have h := calculateBubbleSize_closed_form c
    omega
  · have h := calculateBubbleSize_closed_form c
    omega
  · rfl
  · have h := calculateBubbleSize_closed_form c
    omega
  · rfl
  · have h1 := calculateBubbleSize_closed_form c
    have h2 := calculateBubbleSize_closed_form d
    omega

/-- Witness for C9: the size theorem instantiated at counts 3, 7 and the
pair 4 ≤ 5. -/
theorem bubbleSize_formula_cases_and_monotone_witness :
    calculateBubbleSize 3 = 520 ∧ calculateBubbleSize 7 = 680 ∧
    calculateBubbleSize 4 ≤ calculateBubbleSize 5 :=
  ⟨bubbleSize_formula_cases_and_monotone.2.1 3 (by decide),
   bubbleSize_formula_cases_and_monotone.2.2.2.2.1,
   bubbleSize_formula_cases_and_monotone.2.2.2.2.2 4 5 (by decide)⟩

/-- Every persona track appears in the pop branch's stop list. -/
theorem mem_popStopList (t : Track) : t ∈ popStopList := by
  cases t <;> decide

/-- C8 counterexample: for the beta bubble on page 1 of 2 (a page
strictly before the last), the CTA press is not a no-op for one-shot
audio — the handler stops the `chat1` track while paginating, refuting
the claim that no one-shot track is stopped before the last page. -/
theorem cta_pagination_stops_track_cex :
    betaPage1.currentPage < betaPage1.totalPages ∧
    BubbleEffect.stopTrackFx Track.chat1 ∈ (ctaClick betaPage1).2 := by
  decide

/-- C8 amended: a CTA press on a bubble whose `currentPage` is strictly
below `totalPages` paginates instead of popping: no pop effect is played,
the bubble is not popped or removed and no scene-advancement check runs;
the page increments, and the only one-shot stops are the page-handoff
stops of the beta bubble (`chat1`) and the tobias bubble (`tobias1`) when
they reach page 2. -/
theorem cta_before_last_page_paginates (b : BubbleState)
    (h : b.currentPage < b.totalPages) :
    BubbleEffect.popSound ∉ (ctaClick b).2 ∧
    BubbleEffect.removeBubble ∉ (ctaClick b).2 ∧
    (∀ tag, BubbleEffect.advanceCheck tag ∉ (ctaClick b).2) ∧
    (ctaClick b).1.popped = b.popped ∧
    (ctaClick b).1.currentPage = b.currentPage + 1 ∧
    (∀ t, BubbleEffect.stopTrackFx t ∈ (ctaClick b).2 →
      (b.kind = BubbleKind.beta ∧ t = Track.chat1) ∨
      (b.kind = BubbleKind.tobias ∧ t = Track.tobias1)) := by
  simp only [ctaClick, if_pos h]
  refine ⟨?_, ?_, ?_, by trivial, by trivial, ?_⟩
  · split_ifs <;> simp_all
  · split_ifs <;> simp_all
  · intro tag
    split_ifs <;> simp_all
  · intro t ht
    split_ifs at ht <;> simp_all

/-- Witness for the amended C8 theorem: the gamma bubble on page 1 of 2
paginates without popping. -/
theorem cta_before_last_page_paginates_witness :
    BubbleEffect.popSound ∉ (ctaClick gammaPage1).2 ∧
    BubbleEffect.removeBubble ∉ (ctaClick gammaPage1).2 ∧
    (∀ tag, BubbleEffect.advanceCheck tag ∉ (ctaClick gammaPage1).2) ∧
    (ctaClick gammaPage1).1.popped = gammaPage1.popped ∧
    (ctaClick gammaPage1).1.currentPage = gammaPage1.currentPage + 1 ∧
    (∀ t, BubbleEffect.stopTrackFx t ∈ (ctaClick gammaPage1).2 →
      (gammaPage1.kind = BubbleKind.beta ∧ t = Track.chat1) ∨
      (gammaPage1.kind = BubbleKind.tobias ∧ t = Track.tobias1)) :=
  cta_before_last_page_paginates gammaPage1 (by decide)

/-- C2 counterexample: popping the alpha bubble stops the `chat1` track,
which is bound to the beta bubble and not to the alpha bubble — the
stop-on-pop set is not limited to the popped bubble's own bindings. -/
theorem pop_stops_other_bubbles_track_cex :
    ¬ alphaLastPage.currentPage < alphaLastPage.totalPages ∧
    Track.chat1 ∉ boundTracks BubbleKind.alpha ∧
    Track.chat1 ∈ boundTracks BubbleKind.beta ∧
    BubbleEffect.stopTrackFx Track.chat1 ∈ (ctaClick alphaLastPage).2 := by
  decide

/-- C2 amended: popping a bubble (CTA pressed on its last page) stops
every persona one-shot track of the application — all tracks bound to the
popped bubble are stopped, but so is every track bound to any other
bubble, because the pop branch calls all fifteen `stop...Audio` methods
unconditionally. -/
theorem pop_stops_every_persona_track (b : BubbleState)
    (h : ¬ b.currentPage < b.totalPages) :
    (∀ t ∈ boundTracks b.kind, BubbleEffect.stopTrackFx t ∈ (ctaClick b).2) ∧
    (∀ t : Track, BubbleEffect.stopTrackFx t ∈ (ctaClick b).2) ∧
    BubbleEffect.popSound ∈ (ctaClick b).2 ∧
    (ctaClick b).1.popped = true := by
  simp only [ctaClick, if_neg h]
  refine ⟨?_, ?_, ?_, by trivial⟩
  · intro t _
    exact List.mem_cons_of_mem _
      (List.mem_append_left _ (List.mem_map_of_mem _ (mem_popStopList t)))
  · intro t
    exact List.mem_cons_of_mem _
      (List.mem_append_left _ (List.mem_map_of_mem _ (mem_popStopList t)))
  · exact List.mem_cons_self _ _

/-- Witness for the amended C2 theorem: popping the alpha bubble stops
its own `copilot` track (and the pop sound plays, and the bubble pops). -/
theorem pop_stops_every_persona_track_witness :
    BubbleEffect.stopTrackFx Track.copilot ∈ (ctaClick alphaLastPage).2 ∧
    BubbleEffect.popSound ∈ (ctaClick alphaLastPage).2 ∧
    (ctaClick alphaLastPage).1.popped = true :=
  ⟨(pop_stops_every_persona_track alphaLastPage (by decide)).1
      Track.copilot (by decide),
   (pop_stops_every_persona_track alphaLastPage (by decide)).2.2.1,
   (pop_stops_every_persona_track alphaLastPage (by decide)).2.2.2⟩

/-- C10: a bubble whose content has no sentence elements gets the default
sentence count 3, hence the base size 520, a single page, and the initial
CTA label `'Pop!'` rather than `'Volgende'`. -/
theorem empty_content_defaults_to_three_sentences :
    effectiveSentenceCount 0 = 3 ∧
    calculateBubbleSize (effectiveSentenceCount 0) = 520 ∧
    totalPagesFor (effectiveSentenceCount 0) = 1 ∧
    initialCtaLabel (totalPagesFor (effectiveSentenceCount 0)) =
      CtaLabel.popLabel := by
  refine ⟨rfl, rfl, rfl, rfl⟩

/-- Each single `runSceneTransition` call schedules exactly one
`onComplete` event, whatever the key and start time. -/
theorem runSceneTransition_onComplete_count (key : TransitionKey)
    (startTime : Nat) :
    ((runSceneTransition key startTime).filter isOnComplete).length = 1 := by
  cases key <;> rfl

/-- C7: for every configured transition with duration 5500 ms
(`'2-3'`, `'4-5'` and `'6-7'`), one run invokes `onComplete` exactly
once, scheduled exactly 5500 ms after the run starts — the filtered
event list is the singleton at `startTime + 5500`, so `onComplete`
never fires earlier. -/
theorem transition_onComplete_once_at_5500 (key : TransitionKey)
    (startTime : Nat) (hdur : (TRANSITIONS key).duration = 5500) :
    (runSceneTransition key startTime).filter isOnComplete =
      [(startTime + 5500, TransitionEvent.onComplete key)] := by
  cases key
  · rfl
  · rfl
  · rfl
  · exact absurd hdur (by decide)

/-- Witness for C7: the `'2-3'` transition run at time 0 completes
exactly once at 5500 ms. -/
theorem transition_onComplete_once_at_5500_witness :
    (runSceneTransition TransitionKey.k23 0).filter isOnComplete =
      [(0 + 5500, TransitionEvent.onComplete TransitionKey.k23)] :=
  transition_onComplete_once_at_5500 TransitionKey.k23 0 rfl

/-- C3 counterexample: a second `runSceneTransition('2-3')` call at time
100, while the first (started at time 0, duration 5500) is still in
flight, is not rejected: it runs its own phase effects (`onStart`) and
ambient fade at time 100 and schedules a second `onComplete`, so the
combined schedule holds two `onComplete` events. -/
theorem second_transition_not_rejected_cex :
    100 < 0 + (TRANSITIONS TransitionKey.k23).duration ∧
    ((runSceneTransition TransitionKey.k23 0 ++
      runSceneTransition TransitionKey.k23 100).filter isOnComplete).length = 2 ∧
    (100, TransitionEvent.onStart TransitionKey.k23) ∈
      runSceneTransition TransitionKey.k23 100 ∧
    (100, TransitionEvent.fadeAmbientToLevelEv (1/2) 500) ∈
      runSceneTransition TransitionKey.k23 100 := by
  refine ⟨by decide, rfl,
    by simp [runSceneTransition, stepsLoopKey, TRANSITIONS],
    by simp [runSceneTransition, stepsLoopKey, TRANSITIONS]⟩

/-- C3 amended: `runSceneTransition` has no in-flight guard: a run call
made while another transition is still running executes in full — it
triggers its own phase effects (`onStart`) and, for the Steps keys, its
own ambient fade at its start time, and it schedules its own
`onComplete`, so the combined schedule holds exactly two `onComplete`
events. -/
theorem run_while_in_flight_runs_fully (k1 k2 : TransitionKey)
    (t0 t1 : Nat) (_hflight : t1 < t0 + (TRANSITIONS k1).duration) :
    ((runSceneTransition k1 t0 ++
      runSceneTransition k2 t1).filter isOnComplete).length = 2 ∧
    (t1, TransitionEvent.onStart k2) ∈ runSceneTransition k2 t1 ∧
    (stepsLoopKey k2 = true →
      (t1, TransitionEvent.fadeAmbientToLevelEv (1/2)
        (TRANSITIONS k2).audioFadeOut) ∈ runSceneTransition k2 t1) := by
  refine ⟨?_, ?_, ?_⟩
  · rw [List.filter_append, List.length_append,
      runSceneTransition_onComplete_count, runSceneTransition_onComplete_count]
  · cases k2 <;> simp [runSceneTransition]
  · intro hs
    cases k2 <;> simp_all [runSceneTransition, stepsLoopKey, TRANSITIONS]

/-- Witness for the amended C3 theorem: a `'4-5'` run at time 600 during
a `'2-3'` run started at time 0. -/
theorem run_while_in_flight_runs_fully_witness :
    ((runSceneTransition TransitionKey.k23 0 ++
      runSceneTransition TransitionKey.k45 600).filter isOnComplete).length = 2 ∧
    (600, TransitionEvent.onStart TransitionKey.k45) ∈
      runSceneTransition TransitionKey.k45 600 ∧
    (stepsLoopKey TransitionKey.k45 = true →
      (600, TransitionEvent.fadeAmbientToLevelEv (1/2)
        (TRANSITIONS TransitionKey.k45).audioFadeOut) ∈
        runSceneTransition TransitionKey.k45 600) :=
  run_while_in_flight_runs_fully TransitionKey.k23 TransitionKey.k45 0 600
    (by decide)

/-- C6: in the scene-2 scenario with three bubbles, popping the first
and the second bubble runs no scene transition; popping the third and
last runs `openScene3` exactly once, which starts exactly one `'2-3'`
transition — a transition whose destination is scene 3 and which
schedules exactly one `onComplete`. -/
theorem scene2_three_pops_advance_once (b1 b2 b3 : Nat) :
    (popScene2Bubble b1 ⟨[b1, b2, b3], []⟩).transitionsRun = [] ∧
    (popScene2Bubble b2 (popScene2Bubble b1 ⟨[b1, b2, b3], []⟩)).transitionsRun
      = [] ∧
    (popScene2Bubble b3 (popScene2Bubble b2
      (popScene2Bubble b1 ⟨[b1, b2, b3], []⟩))).transitionsRun
      = [TransitionKey.k23] ∧
    targetSceneOf TransitionKey.k23 = 3 ∧
    (∀ t : Nat,
      ((runSceneTransition TransitionKey.k23 t).filter isOnComplete).length
        = 1) := by
  refine ⟨?_, ?_, ?_, rfl, fun t => runSceneTransition_onComplete_count _ t⟩ <;>
    simp [popScene2Bubble, openScene3, List.erase_cons_head]

/-- Volume retargeting rewrites an existing map entry's volume when the
config mentions its id and leaves it untouched otherwise. -/
theorem lookupIn_retargetVolumes (cfg : List (LayerId × ℚ))
    (layers : List (LayerId × Layer)) (id : LayerId) :
    lookupIn id (retargetVolumes cfg layers) =
      (lookupIn id layers).map fun l =>
        match lookupIn id cfg with
        | some v => { l with volume := v }
        | none => l := by
  induction layers with
  | nil => rfl
  | cons p rest ih =>
    obtain ⟨k, l⟩ := p
    by_cases hk : k = id
    · subst hk
      cases hcfg : lookupIn k cfg <;>
        simp [retargetVolumes, lookupIn, hcfg]
    · cases hcfg : lookupIn k cfg <;>
        simp [retargetVolumes, lookupIn, hk, hcfg] <;>
        simpa [retargetVolumes] using ih

/-- Volume retargeting never adds, removes or re-keys map entries. -/
theorem retargetVolumes_keys (cfg : List (LayerId × ℚ))
    (layers : List (LayerId × Layer)) :
    (retargetVolumes cfg layers).map Prod.fst = layers.map Prod.fst := by
  induction layers with
  | nil => rfl
  | cons p rest ih =>
    obtain ⟨k, l⟩ := p
    cases hcfg : lookupIn k cfg <;>
      simp [retargetVolumes, hcfg] <;>
      simpa [retargetVolumes] using ih

/-- C1: ambient layers are created at most once.  If a layer already
exists in `ambientLayers`, any later `playAmbient(sceneNum)` call keeps
the very same entry — same creation identity, same playing/loop/muted
state — and never recreates it or restarts playback; the id set of the
map is unchanged; and when audio is initialized and enabled and the scene
has an ambience config naming this layer, the call retargets the layer's
volume to that scene's configured value. -/
theorem playAmbient_preserves_existing_layer (st : AmbientState)
    (sceneNum : Nat) (id : LayerId) (l : Layer)
    (hfound : lookupIn id st.ambientLayers = some l) :
    ∃ l', lookupIn id (playAmbient sceneNum st).ambientLayers = some l' ∧
      l'.createdAt = l.createdAt ∧ l'.playing = l.playing ∧
      l'.loop = l.loop ∧ l'.muted = l.muted ∧
      (playAmbient sceneNum st).ambientLayers.map Prod.fst =
        st.ambientLayers.map Prod.fst ∧
      (∀ cfg v, st.audioInitialized = true → st.audioEnabled = true →
        sceneConfig sceneNum = some cfg → lookupIn id cfg = some v →
        l'.volume = v) := by
  have hne : st.ambientLayers.isEmpty = false := by
    cases hl : st.ambientLayers with
    | nil => rw [hl] at hfound; exact absurd hfound (by simp [lookupIn])
    | cons a rest => rfl
  unfold playAmbient
  by_cases hq : st.audioInitialized = false ∧ sceneNum = 1
  · refine ⟨l, ?_⟩
    rw [if_pos hq]
    exact ⟨hfound, rfl, rfl, rfl, rfl, rfl,
      fun cfg v hini _ _ _ => absurd hini (by simp [hq.1])⟩
  · rw [if_neg hq]
    by_cases hen : st.audioEnabled = false
    · refine ⟨l, ?_⟩
      rw [if_pos hen]
      exact ⟨hfound, rfl, rfl, rfl, rfl, rfl,
        fun cfg v _ hena _ _ => absurd hena (by simp [hen])⟩
    · rw [if_neg hen]
      cases hcfg : sceneConfig sceneNum with
      | none =>
        exact ⟨l, hfound, rfl, rfl, rfl, rfl, rfl,
          fun cfg v _ _ hc _ => absurd hc (by simp)⟩
      | some cfg =>
        simp only [hne, Bool.false_eq_true, if_false]
        cases hl : lookupIn id cfg with
        | none =>
          refine ⟨l, ?_, rfl, rfl, rfl, rfl, retargetVolumes_keys cfg _, ?_⟩
          · rw [lookupIn_retargetVolumes, hfound]
            simp [hl]
          · intro cfg' v _ _ hc hv
            obtain rfl : cfg = cfg' := by injection hc
            rw [hl] at hv
            exact absurd hv (by simp)
        | some v =>
          refine ⟨{ l with volume := v }, ?_, rfl, rfl, rfl, rfl,
            retargetVolumes_keys cfg _, ?_⟩
          · rw [lookupIn_retargetVolumes, hfound]
            simp [hl]
          · intro cfg' v' _ _ hc hv
            obtain rfl : cfg = cfg' := by injection hc
            rw [hl] at hv
            injection hv with hv

/-- Witness for C1: the scene-1 frogs layer survives
`playAmbient(2)` with identity and playback intact. -/
theorem playAmbient_preserves_existing_layer_witness :
    ∃ l', lookupIn LayerId.frogs
        (playAmbient 2 demoAmbientState).ambientLayers = some l' ∧
      l'.createdAt = demoFrogsLayer.createdAt ∧
      l'.playing = demoFrogsLayer.playing ∧
      l'.loop = demoFrogsLayer.loop ∧ l'.muted = demoFrogsLayer.muted ∧
      (playAmbient 2 demoAmbientState).ambientLayers.map Prod.fst =
        demoAmbientState.ambientLayers.map Prod.fst ∧
      (∀ cfg v, demoAmbientState.audioInitialized = true →
        demoAmbientState.audioEnabled = true →
        sceneConfig 2 = some cfg → lookupIn LayerId.frogs cfg = some v →
        l'.volume = v) :=
  playAmbient_preserves_existing_layer demoAmbientState 2 LayerId.frogs
    demoFrogsLayer rfl

/-- C4 counterexample: after `fadeOutAmbient` immediately followed by
`fadeAmbientToLevel(0.5)` on a system whose frogs and night layers are
playing, *both* fade intervals are live and driving the frogs layer —
the earlier envelope is not cancelled, refuting the claim that at every
instant at most one envelope writes a layer's volume. -/
theorem fade_start_does_not_cancel_cex :
    ((fadeAmbientToLevel (1/2) (fadeOutAmbient demoFadeSystem)).envelopes.map
      (fun e => envelopeDrives e LayerId.frogs)) = [true, true] := by
  rfl

/-- C4 amended: starting a new fade (fade-to-level, fade-out or fade-in)
never cancels an envelope already driving the layers: every existing
interval survives the call unchanged, and one more envelope driving the
layer is appended, so the number of live envelopes concurrently driving
a given layer grows by one with each fade call. -/
theorem fade_start_appends_and_preserves_envelopes (st : FadeSystem)
    (L : ℚ) (id : LayerId) (hne : st.layers.isEmpty = false)
    (hid : id ∈ st.layers.map Prod.fst) :
    ((fadeAmbientToLevel L st).envelopes.filter
        (fun e => envelopeDrives e id)).length =
      (st.envelopes.filter (fun e => envelopeDrives e id)).length + 1 ∧
    ((fadeOutAmbient st).envelopes.filter
        (fun e => envelopeDrives e id)).length =
      (st.envelopes.filter (fun e => envelopeDrives e id)).length + 1 ∧
    ((fadeInAmbient st).envelopes.filter
        (fun e => envelopeDrives e id)).length =
      (st.envelopes.filter (fun e => envelopeDrives e id)).length + 1 ∧
    (∀ e ∈ st.envelopes, e ∈ (fadeAmbientToLevel L st).envelopes ∧
      e ∈ (fadeOutAmbient st).envelopes ∧ e ∈ (fadeInAmbient st).envelopes) := by
  refine ⟨?_, ?_, ?_, fun e he => ?_⟩
  · simp [fadeAmbientToLevel, hne, List.filter_append, envelopeDrives, hid,
      fadeSteps]
  · simp [fadeOutAmbient, hne, List.filter_append, envelopeDrives, hid,
      fadeSteps]
  · simp [fadeInAmbient, hne, List.filter_append, envelopeDrives, hid,
      fadeSteps]
  · exact ⟨by simp [fadeAmbientToLevel, hne, he],
      by simp [fadeOutAmbient, hne, he], by simp [fadeInAmbient, hne, he]⟩

/-- Witness for the amended C4 theorem: a fade started while the
fade-out envelope of `fade_start_does_not_cancel_cex`'s scenario is
live adds a second envelope on the frogs layer. -/
theorem fade_start_appends_and_preserves_envelopes_witness :
    ((fadeAmbientToLevel (1/2) (fadeOutAmbient demoFadeSystem)).envelopes.filter
        (fun e => envelopeDrives e LayerId.night)).length =
      ((fadeOutAmbient demoFadeSystem).envelopes.filter
        (fun e => envelopeDrives e LayerId.night)).length + 1 :=
  (fade_start_appends_and_preserves_envelopes (fadeOutAmbient demoFadeSystem)
    (1/2) LayerId.night rfl (by decide)).1

/-- Volume written by the k-th fade-out tick, for k within the step
budget: the captured start volume scaled by `1 - progress`. -/
theorem fadeOutTicks_volume (v t0 : ℚ) (k : Nat) (hk : k ≤ 50) :
    (fadeOutTicks v t0 k).volume = v * (1 - (k : ℚ) / 50) := by
  cases k with
  | zero => simp [fadeOutTicks]
  | succ n =>
    have h1 : ¬ (50 ≤ n) := by omega
    by_cases h2 : 49 ≤ n <;>
      simp [fadeOutTicks, fadeSteps, h1, h2]

/-- A fade-out tick pauses the layer exactly when it is the tick that
exhausts the step budget. -/
theorem fadeOutTicks_paused (v t0 : ℚ) (k : Nat) (hk : k ≤ 50) :
    (fadeOutTicks v t0 k).paused = decide (50 ≤ k) := by
  cases k with
  | zero => simp [fadeOutTicks]
  | succ n =>
    have h1 : ¬ (50 ≤ n) := by omega
    by_cases h2 : 49 ≤ n
    · rw [decide_eq_true (show 50 ≤ n + 1 by omega)]
      simp [fadeOutTicks, fadeSteps, h1, h2]
    · rw [decide_eq_false (show ¬ 50 ≤ n + 1 by omega)]
      simp [fadeOutTicks, fadeSteps, h1, h2]

/-- The playback position is reset to 0 by the final fade-out tick and
untouched before it. -/
theorem fadeOutTicks_time (v t0 : ℚ) (k : Nat) (hk : k ≤ 50) :
    (fadeOutTicks v t0 k).currentTime = if 50 ≤ k then 0 else t0 := by
  induction k with
  | zero => simp [fadeOutTicks]
  | succ n ih =>
    have h1 : ¬ (50 ≤ n) := by omega
    by_cases h2 : 49 ≤ n
    · have hx : 50 ≤ n + 1 := by omega
      simp [fadeOutTicks, fadeSteps, h1, h2, hx]
    · have hx : ¬ (50 ≤ n + 1) := by omega
      have ihh := ih (by omega)
      simp [fadeOutTicks, fadeSteps, h1, h2, hx, ihh]

/-- After the fade-out interval clears itself (at 50 ticks), the layer
state no longer changes. -/
theorem fadeOutTicks_frozen (v t0 : ℚ) (n : Nat) (hn : 50 ≤ n) :
    fadeOutTicks v t0 n = fadeOutTicks v t0 50 := by
  induction n with
  | zero => omega
  | succ m ih =>
    by_cases h : 50 ≤ m
    · have hf : fadeSteps ≤ m := by simp only [fadeSteps]; omega
      calc fadeOutTicks v t0 (m + 1) = fadeOutTicks v t0 m := by
            simp [fadeOutTicks, hf]
        _ = fadeOutTicks v t0 50 := ih h
    · have hm : m + 1 = 50 := by omega
      rw [hm]

/-- Volume written by the k-th fade-to-level tick, for k within the step
budget. -/
theorem fadeToLevelTicks_formula (v L : ℚ) (k : Nat) (hk : k ≤ 50) :
    fadeToLevelTicks v L k = v * (1 - (k : ℚ) / 50 * (1 - L)) := by
  cases k with
  | zero => simp [fadeToLevelTicks]
  | succ n =>
    have h1 : ¬ (50 ≤ n) := by omega
    simp [fadeToLevelTicks, fadeSteps, h1]

/-- After the fade-to-level interval clears itself, the layer volume no
longer changes. -/
theorem fadeToLevelTicks_frozen (v L : ℚ) (n : Nat) (hn : 50 ≤ n) :
    fadeToLevelTicks v L n = fadeToLevelTicks v L 50 := by
  induction n with
  | zero => omega
  | succ m ih =>
    by_cases h : 50 ≤ m
    · have hf : fadeSteps ≤ m := by simp only [fadeSteps]; omega
      calc fadeToLevelTicks v L (m + 1) = fadeToLevelTicks v L m := by
            simp [fadeToLevelTicks, hf]
        _ = fadeToLevelTicks v L 50 := ih h
    · have hm : m + 1 = 50 := by omega
      rw [hm]

/-- Volume written by the k-th fade-in tick, for k within the step
budget (the final tick's snap writes exactly the captured target). -/
theorem fadeInTicks_formula (target : ℚ) (k : Nat) (hk : k ≤ 50) :
    fadeInTicks target k = target * (k : ℚ) / 50 := by
  cases k with
  | zero => simp [fadeInTicks]
  | succ n =>
    have h1 : ¬ (50 ≤ n) := by omega
    by_cases h2 : 49 ≤ n
    · have hm : n + 1 = 50 := by omega
      rw [hm]
      show fadeInTicks target 50 = target * (50 : ℚ) / 50
      rw [show fadeInTicks target 50 = target from rfl]
      ring
    · simp [fadeInTicks, fadeSteps, h1, h2]

/-- After the fade-in interval clears itself, the layer volume stays
snapped exactly at the captured target. -/
theorem fadeInTicks_frozen (target : ℚ) (n : Nat) (hn : 50 ≤ n) :
    fadeInTicks target n = target := by
  induction n with
  | zero => omega
  | succ m ih =>
    by_cases h : 50 ≤ m
    · have hf : fadeSteps ≤ m := by simp only [fadeSteps]; omega
      calc fadeInTicks target (m + 1) = fadeInTicks target m := by
            simp [fadeInTicks, hf]
        _ = target := ih h
    · have hm : m + 1 = 50 := by omega
      rw [hm]
      rfl

/-- C5: ambient fades interpolate a layer's volume linearly in time from
its captured start value.  With tick k of a 500 ms fade firing at
`k * (500/50)` ms, the 250 ms sample (tick 25) of a fade-out from volume
0.5 is exactly 0.25; once the step budget has elapsed the volume equals
the target exactly (0 for a fade-out, `startVolume * level` for a
fade-to-level, the captured target for a fade-in); and the fade-out
pauses the layer and resets its playback position exactly at the tick on
which the volume reaches 0 — whenever the layer is paused its volume is
0, and before the pause its playback position is untouched. -/
theorem ambient_fade_linear_exact_and_pause (v t0 : ℚ) (k n : Nat)
    (hk : k ≤ 50) (hn : 50 ≤ n) :
    tickTime 500 25 = 250 ∧
    (fadeOutTicks (1/2) t0 25).volume = 1/4 ∧
    (fadeOutTicks v t0 k).volume = v * (1 - (k : ℚ) / 50) ∧
    (fadeOutTicks v t0 n).volume = 0 ∧
    (fadeOutTicks v t0 n).paused = true ∧
    (fadeOutTicks v t0 n).currentTime = 0 ∧
    (∀ m : Nat, (fadeOutTicks v t0 m).paused = true →
      50 ≤ m ∧ (fadeOutTicks v t0 m).volume = 0) ∧
    (∀ m : Nat, (fadeOutTicks v t0 m).paused = false →
      (fadeOutTicks v t0 m).currentTime = t0) ∧
    (∀ L, fadeToLevelTicks v L k = v * (1 - (k : ℚ) / 50 * (1 - L))) ∧
    (∀ L, fadeToLevelTicks v L n = v * L) ∧
    fadeInTicks v k = v * (k : ℚ) / 50 ∧
    fadeInTicks v n = v := by
  refine ⟨by norm_num [tickTime, stepDuration, fadeSteps], ?_,
    fadeOutTicks_volume v t0 k hk, ?_, ?_, ?_, ?_, ?_,
    fun L => fadeToLevelTicks_formula v L k hk, ?_,
    fadeInTicks_formula v k hk, fadeInTicks_frozen v n hn⟩
  · rw [fadeOutTicks_volume (1/2) t0 25 (by norm_num)]
    norm_num
  · rw [fadeOutTicks_frozen v t0 n hn, fadeOutTicks_volume v t0 50 le_rfl]
    norm_num
  · rw [fadeOutTicks_frozen v t0 n hn, fadeOutTicks_paused v t0 50 le_rfl]
    simp
  · rw [fadeOutTicks_frozen v t0 n hn, fadeOutTicks_time v t0 50 le_rfl]
    simp
  · intro m hm
    by_cases h : 50 ≤ m
    · refine ⟨h, ?_⟩
      rw [fadeOutTicks_frozen v t0 m h, fadeOutTicks_volume v t0 50 le_rfl]
      norm_num
    · exfalso
      have hp := fadeOutTicks_paused v t0 m (by omega)
      rw [hm] at hp
      simp [h] at hp
  · intro m hm
    by_cases h : 50 ≤ m
    · exfalso
      rw [fadeOutTicks_frozen v t0 m h,
        fadeOutTicks_paused v t0 50 le_rfl] at hm
      simp at hm
    · rw [fadeOutTicks_time v t0 m (by omega)]
      exact if_neg h
  · intro L
    rw [fadeToLevelTicks_frozen v L n hn, fadeToLevelTicks_formula v L 50 le_rfl]
    norm_num

/-- Witness for C5: the fade theorem at start volume 0.5, playback
position 7, sample tick 25 and a post-duration tick 60. -/
theorem ambient_fade_linear_exact_and_pause_witness :
    tickTime 500 25 = 250 ∧
    (fadeOutTicks (1/2) 7 25).volume = 1/4 ∧
    (fadeOutTicks (1/2) 7 25).volume = (1/2) * (1 - (25 : ℚ) / 50) ∧
    (fadeOutTicks (1/2) 7 60).volume = 0 ∧
    (fadeOutTicks (1/2) 7 60).paused = true ∧
    (fadeOutTicks (1/2) 7 60).currentTime = 0 ∧
    (∀ m : Nat, (fadeOutTicks (1/2) 7 m).paused = true →
      50 ≤ m ∧ (fadeOutTicks (1/2) 7 m).volume = 0) ∧
    (∀ m : Nat, (fadeOutTicks (1/2) 7 m).paused = false →
      (fadeOutTicks (1/2) 7 m).currentTime = 7) ∧
    (∀ L, fadeToLevelTicks (1/2) L 25 =
      (1/2) * (1 - (25 : ℚ) / 50 * (1 - L))) ∧
    (∀ L, fadeToLevelTicks (1/2) L 60 = (1/2) * L) ∧
    fadeInTicks (1/2) 25 = (1/2) * (25 : ℚ) / 50 ∧
    fadeInTicks (1/2) 60 = 1/2 :=
  ambient_fade_linear_exact_and_pause (1/2) 7 25 60 (by norm_num) (by norm_num)

end FogResolve
